import Mathlib

/-!
Formal model of a collector agent's host-side orchestration code
(`browser_pool.py`, `meituan_collector.py`, `review_reply.py`):
the resource monitor, the cookie upload queue, the browser session pool,
the keepalive scheduler, the HTTP retry helper, the report-template
provisioner, the auth-invalidation reporting fan-out, and the review-reply
driver.  Each definition is a shallow embedding of the corresponding Python
function; environment-dependent effects (HTTP responses, page navigation
outcomes, clock readings) appear as explicit parameters or oracle fields.
Theorems at the end of the file settle the specified behaviours.
-/

namespace Collector

/-- Character-list infix test: `needle` occurs contiguously inside
`haystack`.  Models the Python substring operator `needle in haystack`. -/
def listIsInfix (needle : List Char) : List Char → Bool
  | [] => needle.isEmpty
  | c :: t => needle.isPrefixOf (c :: t) || listIsInfix needle t

/-- String containment, modelling Python `pat in s`. -/
def strContains (s pat : String) : Bool :=
  listIsInfix pat.toList s.toList

/-- ASCII lowercasing, modelling Python `s.lower()` on the ASCII strings it
is applied to (URLs and exception texts). -/
def strToLower (s : String) : String :=
  ⟨s.data.map Char.toLower⟩

end Collector

namespace BrowserPool

/-- Resource status constants of `ResourceMonitor` (browser_pool.py lines
222-224): `STATUS_NORMAL`, `STATUS_WARNING`, `STATUS_CRITICAL`. -/
inductive RStatus where
  | normal
  | warning
  | critical
deriving DecidableEq, Repr

/-- Constant `RESOURCE_CHECK_INTERVAL` (browser_pool.py line 55): seconds between
fresh resource samples; inside the window the cached verdict is reused. -/
def RESOURCE_CHECK_INTERVAL : Int := 30

/-- Constant `CPU_WARNING_THRESHOLD` (browser_pool.py line 56). -/
def CPU_WARNING_THRESHOLD : ℚ := 50

/-- Constant `CPU_CRITICAL_THRESHOLD` (browser_pool.py line 57). -/
def CPU_CRITICAL_THRESHOLD : ℚ := 70

/-- Constant `MEMORY_WARNING_THRESHOLD` (browser_pool.py line 58). -/
def MEMORY_WARNING_THRESHOLD : ℚ := 60

/-- Constant `MEMORY_CRITICAL_THRESHOLD` (browser_pool.py line 59). -/
def MEMORY_CRITICAL_THRESHOLD : ℚ := 80

/-- State of `ResourceMonitor` (browser_pool.py lines 226-230): the time of
the last fresh sample (`None` before the first one) and the cached verdict
with the two cached utilisation figures.  Times are seconds on an absolute
clock; utilisations are percentages. -/
structure ResourceMonitor where
  last_check_time : Option Int
  cached_status : RStatus
  cached_cpu : ℚ
  cached_memory : ℚ
deriving DecidableEq, Repr

/-- The fresh `ResourceMonitor` built by `__init__` (browser_pool.py lines
226-230). -/
def ResourceMonitor.init : ResourceMonitor :=
  { last_check_time := none
    cached_status := RStatus.normal
    cached_cpu := 0
    cached_memory := 0 }

/-- The threshold classification of a fresh sample (browser_pool.py lines
317-323): CRITICAL when cpu ≥ 70 or memory ≥ 80, else WARNING when cpu ≥ 50
or memory ≥ 60, else NORMAL. -/
def classify_sample (cpu memory : ℚ) : RStatus :=
  if CPU_CRITICAL_THRESHOLD ≤ cpu ∨ MEMORY_CRITICAL_THRESHOLD ≤ memory then
    RStatus.critical
  else if CPU_WARNING_THRESHOLD ≤ cpu ∨ MEMORY_WARNING_THRESHOLD ≤ memory then
    RStatus.warning
  else
    RStatus.normal

/-- Model of `ResourceMonitor.check_status` (browser_pool.py lines 292-325).  `now`
is the current clock reading; `cpu` and `memory` are the utilisations the
two `/proc` samplers would report if a fresh sample is taken.  Returns the
verdict together with the updated monitor state: when `force` is false and
the last sample is younger than `RESOURCE_CHECK_INTERVAL`, the cached
verdict is returned and the state is untouched; otherwise the sample is
classified, cached and returned. -/
def check_status (m : ResourceMonitor) (now : Int) (cpu memory : ℚ)
    (force : Bool) : RStatus × ResourceMonitor :=
  match m.last_check_time with
  | some t =>
    if ¬ force ∧ now - t < RESOURCE_CHECK_INTERVAL then
      (m.cached_status, m)
    else
      let st := classify_sample cpu memory
      (st, { last_check_time := some now, cached_status := st,
             cached_cpu := cpu, cached_memory := memory })
  | none =>
    let st := classify_sample cpu memory
    (st, { last_check_time := some now, cached_status := st,
           cached_cpu := cpu, cached_memory := memory })

/-- Model of `ResourceMonitor.is_safe_for_keepalive` (browser_pool.py lines 327-330):
the verdict of a (non-forced) status check equals NORMAL. -/
def is_safe_for_keepalive (m : ResourceMonitor) (now : Int)
    (cpu memory : ℚ) : Bool × ResourceMonitor :=
  let (st, m') := check_status m now cpu memory false
  (st = RStatus.normal, m')

/-- Model of `ResourceMonitor.is_safe_for_task` (browser_pool.py lines 332-335):
the verdict of a (non-forced) status check differs from CRITICAL. -/
def is_safe_for_task (m : ResourceMonitor) (now : Int)
    (cpu memory : ℚ) : Bool × ResourceMonitor :=
  let (st, m') := check_status m now cpu memory false
  (st ≠ RStatus.critical, m')

/-- Constant `KEEPALIVE_INTERVAL` (browser_pool.py line 47): 60 minutes in
seconds. -/
def KEEPALIVE_INTERVAL : Int := 60 * 60

/-- Constant `KEEPALIVE_BATCH_SIZE` (browser_pool.py line 49). -/
def KEEPALIVE_BATCH_SIZE : Nat := 2

/-- Constant `KEEPALIVE_FAIL_COOLDOWN` (browser_pool.py line 52): 10 minutes
in seconds. -/
def KEEPALIVE_FAIL_COOLDOWN : Int := 10 * 60

/-- Constant `KEEPALIVE_PAGE_URL` (browser_pool.py line 48). -/
def KEEPALIVE_PAGE_URL : String :=
  "https://e.dianping.com/app/vg-pc-platform-merchant-selfhelp/newNoticeCenter.html"

/-- Constant `COOKIE_UPLOAD_QUEUE_SIZE` (browser_pool.py line 68). -/
def COOKIE_UPLOAD_QUEUE_SIZE : Nat := 1000

/-- A cookie set, modelling the Python dict name → value. -/
abbrev Cookies := List (String × String)

/-- A queue item built by `CookieUploadQueue.put` (browser_pool.py lines
527-532): account id, cookie snapshot and enqueue timestamp. -/
structure Envelope where
  account_id : String
  cookies : Cookies
  timestamp : Int
deriving DecidableEq, Repr

/-- State of `CookieUploadQueue` (browser_pool.py lines 486-494): a bounded
FIFO.  `max_size` is the constructor argument (default
`COOKIE_UPLOAD_QUEUE_SIZE`). -/
structure CookieUploadQueue where
  max_size : Nat
  items : List Envelope
deriving DecidableEq, Repr

/-- Model of `CookieUploadQueue.put` (browser_pool.py lines 520-534):
`put_nowait` succeeds while the queue is below capacity; on a full queue the
`queue.Full` branch drops the new item with a warning. -/
def CookieUploadQueue.put (q : CookieUploadQueue) (account_id : String)
    (cookies : Cookies) (now : Int) : CookieUploadQueue :=
  if q.items.length < q.max_size then
    { q with items := q.items ++ [⟨account_id, cookies, now⟩] }
  else
    q

/-- Environment oracle for one keepalive attempt on a context: the outcome
of the health probe (`is_valid`, browser_pool.py lines 703-732), of the
`safe_goto` navigation (lines 1809-1810), of the `page.url` read (line
1827), and — when all succeed — the URL the page ends up on. -/
inductive KeepaliveProbe where
  | ctxInvalid
  | gotoFailed
  | urlReadFailed
  | pageUrl (url : String)
deriving DecidableEq, Repr

/-- Model of `ContextWrapper` (browser_pool.py lines 633-701) as seen by the
keepalive service: cached cookies, timestamps, plus the environment oracle
for the next keepalive attempt (`probe`) and the cookie set
`context.cookies()` would currently report (`current_cookies`). -/
structure ContextWrapper where
  browser_index : Nat
  cookies : Cookies
  last_used_at : Int
  last_keepalive_at : Option Int
  probe : KeepaliveProbe
  current_cookies : Cookies
deriving DecidableEq, Repr

/-- Observable actions of the keepalive service, in program order. -/
inductive KEvent where
  | navigate (account : String) (url : String)
  | enqueueCookie (account : String)
  | dropCookieFull (account : String)
  | reportCookieInvalid (account : String)
  | removeContext (account : String)
  | updateLastKeepalive (account : String)
deriving DecidableEq, Repr

/-- Combined state of the pool map `_contexts` (insertion-ordered, as a
Python dict), the `KeepaliveService._fail_cooldown` map, the global cookie
upload queue, and the set of accounts whose lock `try_lock` would fail on
(held by a task on another code path). -/
structure KeepaliveState where
  contexts : List (String × ContextWrapper)
  fail_cooldown : List (String × Int)
  queue : CookieUploadQueue
  locked_accounts : List String
deriving DecidableEq, Repr

/-- Model of `KeepaliveService._is_in_cooldown` (browser_pool.py lines
1639-1650): an account is in cooldown when a cooldown-until entry exists
that is still in the future.  (The source also deletes expired entries;
that mutation does not affect any observable modelled here.) -/
def is_in_cooldown (st : KeepaliveState) (now : Int) (account_id : String) :
    Bool :=
  match st.fail_cooldown.lookup account_id with
  | none => false
  | some untilT => decide (now < untilT)

/-- Model of `KeepaliveService._set_cooldown` (browser_pool.py lines
1652-1654). -/
def set_cooldown (st : KeepaliveState) (now : Int) (account_id : String) :
    KeepaliveState :=
  { st with fail_cooldown :=
      (st.fail_cooldown.filter (fun p => p.1 != account_id)) ++
        [(account_id, now + KEEPALIVE_FAIL_COOLDOWN)] }

/-- Model of `BrowserPoolManager.remove_context` (browser_pool.py lines
1231-1250) at the granularity of the keepalive state: the account's entry
leaves the pool map. -/
def remove_context (st : KeepaliveState) (account_id : String) :
    KeepaliveState :=
  { st with contexts := st.contexts.filter (fun p => p.1 != account_id) }

/-- Replaces the wrapper stored for an account in the pool map. -/
def update_context (st : KeepaliveState) (account_id : String)
    (w : ContextWrapper) : KeepaliveState :=
  { st with contexts :=
      st.contexts.map (fun p => if p.1 = account_id then (account_id, w) else p) }

/-- Model of `KeepaliveService._keepalive_single` (browser_pool.py lines
1771-1868).  Returns (counted-as-success, new state, events).  Branches, in
source order: non-blocking lock fails → skip; no context → fail; health
probe fails → remove context, cooldown; navigation fails → cooldown, remove
context; URL read fails → cooldown, remove context; URL contains `login` →
report invalid, cooldown; otherwise snapshot cookies, enqueue them on the
upload queue, then advance `last_keepalive_at`, and count as success. -/
def keepalive_single (st : KeepaliveState) (now : Int) (account_id : String) :
    Bool × KeepaliveState × List KEvent :=
  if st.locked_accounts.contains account_id then
    (false, st, [])
  else
    match st.contexts.lookup account_id with
    | none => (false, st, [])
    | some w =>
      match w.probe with
      | KeepaliveProbe.ctxInvalid =>
        (false, set_cooldown (remove_context st account_id) now account_id,
         [KEvent.removeContext account_id])
      | KeepaliveProbe.gotoFailed =>
        (false, remove_context (set_cooldown st now account_id) account_id,
         [KEvent.navigate account_id KEEPALIVE_PAGE_URL,
          KEvent.removeContext account_id])
      | KeepaliveProbe.urlReadFailed =>
        (false, remove_context (set_cooldown st now account_id) account_id,
         [KEvent.navigate account_id KEEPALIVE_PAGE_URL,
          KEvent.removeContext account_id])
      | KeepaliveProbe.pageUrl url =>
        if Collector.strContains (Collector.strToLower url) "login" then
          (false, set_cooldown st now account_id,
           [KEvent.navigate account_id KEEPALIVE_PAGE_URL,
            KEvent.reportCookieInvalid account_id])
        else
          let q' := st.queue.put account_id w.current_cookies now
          let enqEv :=
            if st.queue.items.length < st.queue.max_size then
              KEvent.enqueueCookie account_id
            else
              KEvent.dropCookieFull account_id
          let w' := { w with cookies := w.current_cookies,
                             last_keepalive_at := some now }
          let st1 := update_context { st with queue := q' } account_id w'
          (true, st1,
           [KEvent.navigate account_id KEEPALIVE_PAGE_URL, enqEv,
            KEvent.updateLastKeepalive account_id])

/-- Ordering on the sort keys of `get_accounts_needing_keepalive`:
`none` stands for `datetime.min` (the key given to never-kept-alive
accounts, browser_pool.py line 1676) and precedes every real timestamp. -/
def keyLE : Option Int → Option Int → Bool
  | none, _ => true
  | some _, none => false
  | some a, some b => decide (a ≤ b)

/-- The comparison relation used to sort pending keepalive candidates. -/
def pendingLE (p q : String × Option Int) : Prop :=
  keyLE p.2 q.2 = true

instance : DecidableRel pendingLE := by
  intro p q
  unfold pendingLE
  infer_instance

instance : IsTotal (String × Option Int) pendingLE := by
  constructor
  intro p q
  cases hp : p.2 <;> cases hq : q.2 <;>
    simp [pendingLE, keyLE, hp, hq] <;> omega

instance : IsTrans (String × Option Int) pendingLE := by
  constructor
  intro p q r hpq hqr
  cases hp : p.2 <;> cases hq : q.2 <;> cases hr : r.2 <;>
    simp_all [pendingLE, keyLE] <;> omega

/-- The candidate-collection loop of `get_accounts_needing_keepalive`
(browser_pool.py lines 1665-1680): walk the pool map in order, skip
accounts in cooldown, keep accounts never kept alive (key `datetime.min`,
modelled `none`) or whose last keepalive is at least `KEEPALIVE_INTERVAL`
old, paired with their sort key. -/
def keepalive_pending (st : KeepaliveState) (now : Int) :
    List (String × Option Int) :=
  st.contexts.filterMap (fun p =>
    if is_in_cooldown st now p.1 then
      none
    else
      match p.2.last_keepalive_at with
      | none => some (p.1, (none : Option Int))
      | some t =>
        if KEEPALIVE_INTERVAL ≤ now - t then some (p.1, some t) else none)

/-- Model of `KeepaliveService.get_accounts_needing_keepalive`
(browser_pool.py lines 1656-1685): collect the due candidates, sort
ascending by last-keepalive key (most overdue first) and return the
account ids. -/
def get_accounts_needing_keepalive (st : KeepaliveState) (now : Int) :
    List String :=
  ((keepalive_pending st now).insertionSort pendingLE).map (fun p => p.1)

/-- The per-account loop of `perform_keepalive_batch` (browser_pool.py
lines 1718-1726): before each account the resource gate is consulted again
(`safe i` is the outcome of the i-th `is_safe_for_keepalive` call of the
batch; index 0 is the opening gate), and the batch is aborted on a negative
answer.  Returns (number of successes, final state, events). -/
def keepalive_batch_go (now : Int) (safe : Nat → Bool) :
    KeepaliveState → List String → Nat → Nat × KeepaliveState × List KEvent
  | st, [], _ => (0, st, [])
  | st, a :: rest, i =>
    if ¬ safe i then
      (0, st, [])
    else
      match keepalive_single st now a with
      | (ok, st1, ev1) =>
        match keepalive_batch_go now safe st1 rest (i + 1) with
        | (n, st2, ev2) => ((if ok then 1 else 0) + n, st2, ev1 ++ ev2)

/-- Model of `KeepaliveService.perform_keepalive_batch` (browser_pool.py
lines 1687-1730).  `safe i` is the outcome of the i-th
`is_safe_for_keepalive` gate call.  If the opening gate fails the batch is
skipped with sentinel `-1`; otherwise the due accounts are computed, `0` is
returned when none is due, and at most `KEEPALIVE_BATCH_SIZE` accounts are
attempted, returning the success count.  (The `check_and_restart` call at
line 1703 returns immediately outside the daily-restart window,
browser_pool.py line 1388; the model covers those states.) -/
def perform_keepalive_batch (st : KeepaliveState) (now : Int)
    (safe : Nat → Bool) : Int × KeepaliveState × List KEvent :=
  if ¬ safe 0 then
    (-1, st, [])
  else
    let accounts := get_accounts_needing_keepalive st now
    if accounts.isEmpty then
      (0, st, [])
    else
      let batch := accounts.take KEEPALIVE_BATCH_SIZE
      match keepalive_batch_go now safe st batch 1 with
      | (n, st', ev) => ((n : Int), st', ev)

/-- Constant `MAX_BROWSERS` (browser_pool.py line 42), the default
`max_browsers` of `BrowserPoolManager`. -/
def MAX_BROWSERS : Nat := 10

/-- Constant `MAX_CONTEXTS_PER_BROWSER` (browser_pool.py line 43), the
default `max_contexts_per_browser` of `BrowserPoolManager`. -/
def MAX_CONTEXTS_PER_BROWSER : Nat := 15

/-- One browser slot of the pool: `_is_browser_healthy`'s verdict for the
instance (environment oracle) and `_browser_context_counts[i]`. -/
structure Browser where
  healthy : Bool
  count : Nat
deriving DecidableEq, Repr

/-- One entry of the pool's `_contexts` map as needed for context
acquisition: the owning browser slot and the `is_valid()` health-probe
outcome for the wrapper. -/
structure CtxRec where
  account_id : String
  browser_index : Nat
  valid : Bool
deriving DecidableEq, Repr

/-- State of `BrowserPoolManager` (browser_pool.py lines 843-858) as needed
for context acquisition: the slot table `_browsers` (with per-slot context
counts) and the `_contexts` map in insertion order. -/
structure Pool where
  max_browsers : Nat
  max_contexts_per_browser : Nat
  browsers : List (Option Browser)
  contexts : List CtxRec
deriving DecidableEq, Repr

/-- The error raised by `_find_available_browser` when every slot is full
(browser_pool.py line 1095, `RuntimeError`; the spec's *PoolSaturated*). -/
inductive PoolError where
  | poolSaturated
deriving DecidableEq, Repr

/-- The first scan of `_find_available_browser` (browser_pool.py lines
1052-1068): walk the slot table, collect unhealthy slots, and track the
healthy slot with the least context count among those with headroom.
Returns (least-loaded slot as (index, count) or `none`, unhealthy slots in
order).  `scan_step` is the loop body, `scan_browsers` the walk. -/
def scan_step (maxPer : Nat) (acc : Option (Nat × Nat) × List Nat)
    (ib : Nat × Option Browser) : Option (Nat × Nat) × List Nat :=
  match ib.2 with
  | none => acc
  | some b =>
    if ¬ b.healthy then
      (acc.1, acc.2 ++ [ib.1])
    else
      match acc.1 with
      | none =>
        if b.count < maxPer then (some (ib.1, b.count), acc.2) else acc
      | some mc =>
        if b.count < maxPer ∧ b.count < mc.2 then
          (some (ib.1, b.count), acc.2)
        else
          acc

def scan_browsers (maxPer : Nat) (browsers : List (Option Browser)) :
    Option (Nat × Nat) × List Nat :=
  browsers.enum.foldl (scan_step maxPer) (none, [])

/-- Model of `_rebuild_browser` (browser_pool.py lines 992-1040): the old
instance is dropped with its context count, every context hosted on the
slot is evicted, and a fresh healthy instance occupies the slot (browser
launch itself is environment; the model covers launches that succeed). -/
def rebuild_browser (p : Pool) (i : Nat) : Pool :=
  { p with browsers := p.browsers.set i (some ⟨true, 0⟩),
           contexts := p.contexts.filter (fun c => c.browser_index != i) }

/-- Model of `_find_available_browser` (browser_pool.py lines 1042-1095):
scan for the least-loaded healthy slot, rebuild unhealthy slots, return the
least-loaded slot if one had headroom, else launch into the first empty
slot, else fall back to a rebuilt slot, else raise *PoolSaturated*. -/
def find_available_browser (p : Pool) : Except PoolError (Nat × Pool) :=
  match scan_browsers p.max_contexts_per_browser p.browsers with
  | (minSlot, unhealthy) =>
    let p1 := unhealthy.foldl rebuild_browser p
    match minSlot with
    | some mc => Except.ok (mc.1, p1)
    | none =>
      match p1.browsers.enum.find? (fun ib => ib.2 = none) with
      | some ib =>
        Except.ok (ib.1, { p1 with browsers := p1.browsers.set ib.1 (some ⟨true, 0⟩) })
      | none =>
        match unhealthy.find? (fun i => (p1.browsers.getD i none).isSome) with
        | some i => Except.ok (i, p1)
        | none => Except.error PoolError.poolSaturated

/-- Increment `_browser_context_counts[i]` (browser_pool.py line 1185). -/
def inc_count (p : Pool) (i : Nat) : Pool :=
  match p.browsers.getD i none with
  | some b => { p with browsers := p.browsers.set i (some { b with count := b.count + 1 }) }
  | none => p

/-- Decrement `_browser_context_counts[i]`, floored at 0 (browser_pool.py
line 1142). -/
def dec_count (p : Pool) (i : Nat) : Pool :=
  match p.browsers.getD i none with
  | some b => { p with browsers := p.browsers.set i (some { b with count := b.count - 1 }) }
  | none => p

/-- The context-creation tail of one `get_context` attempt (browser_pool.py
lines 1148-1189): pick a slot via `_find_available_browser`, create the
context there and register it.  On *PoolSaturated* the attempt fails. -/
def create_new_context (p : Pool) (account_id : String) : Option Nat × Pool :=
  match find_available_browser p with
  | Except.error _ => (none, p)
  | Except.ok (i, p1) =>
    let p2 := inc_count { p1 with contexts := p1.contexts ++ [⟨account_id, i, true⟩] } i
    (some i, p2)

/-- One attempt of `get_context` (browser_pool.py lines 1114-1189): an
existing valid context is returned directly; an existing invalid one is
closed, deregistered and replaced; otherwise a fresh context is created. -/
def get_context_once (p : Pool) (account_id : String) : Option Nat × Pool :=
  match p.contexts.find? (fun c => c.account_id == account_id) with
  | some r =>
    if r.valid then
      (some r.browser_index, p)
    else
      let p1 := dec_count
        { p with contexts := p.contexts.filter (fun c => c.account_id != account_id) }
        r.browser_index
      create_new_context p1 account_id
  | none => create_new_context p account_id

/-- The retry loop of `get_context` (browser_pool.py lines 1114-1211):
`max_retries` attempts (default 2); a raised *PoolSaturated* is caught and
the attempt repeated; after the last attempt `None` is returned. -/
def get_context_go (account_id : String) :
    Nat → Pool → Option Nat × Pool
  | 0, p => (none, p)
  | Nat.succ n, p =>
    match get_context_once p account_id with
    | (some i, p') => (some i, p')
    | (none, p') => get_context_go account_id n p'

/-- Model of `BrowserPoolManager.get_context` (browser_pool.py lines
1097-1211) with the default `max_retries = 2`; returns the hosting slot on
success and `none` when all attempts fail. -/
def get_context (p : Pool) (account_id : String) : Option Nat × Pool :=
  get_context_go account_id 2 p

/-- Context count contributed by one slot: the instance's count, or 0 for
an empty slot. -/
def slot_count : Option Browser → Nat
  | some b => b.count
  | none => 0

/-- Sum of the per-slot context counts of the slot table. -/
def pool_count_sum (browsers : List (Option Browser)) : Nat :=
  (browsers.map slot_count).sum

end BrowserPool

namespace Collector

/-- Constant `MAX_RETRY_ATTEMPTS` (meituan_collector.py line 200). -/
def MAX_RETRY_ATTEMPTS : Nat := 3

/-- Constant `INITIAL_RETRY_DELAY` (meituan_collector.py line 201). -/
def INITIAL_RETRY_DELAY : ℚ := 2

/-- Constant `MAX_RETRY_DELAY` (meituan_collector.py line 202). -/
def MAX_RETRY_DELAY : ℚ := 60

/-- Constant `RETRY_BACKOFF_FACTOR` (meituan_collector.py line 203). -/
def RETRY_BACKOFF_FACTOR : ℚ := 2

/-- Model of `calculate_retry_delay` (meituan_collector.py lines 527-545):
exponential backoff capped at `MAX_RETRY_DELAY`, with ±25 % jitter.  `r` is
the `random.random()` draw, a value in [0, 1). -/
def calculate_retry_delay (attempt : Nat) (r : ℚ) : ℚ :=
  let delay := INITIAL_RETRY_DELAY * RETRY_BACKOFF_FACTOR ^ (attempt - 1)
  let capped := min delay MAX_RETRY_DELAY
  let jitter := capped * (1 / 4) * (2 * r - 1)
  capped + jitter

/-- The exception taxonomy distinguished by `is_retryable_error`
(meituan_collector.py lines 548-571): connect timeout, read timeout,
connection error (carrying the Python `str(error)` text used for the DNS
test), and any other exception. -/
inductive RequestError where
  | connectTimeout
  | readTimeout
  | connectionError (text : String)
  | other (text : String)
deriving DecidableEq, Repr

/-- Model of `is_retryable_error` (meituan_collector.py lines 548-571):
timeouts retry, connection errors retry unless the lowered error text
indicates a DNS failure, everything else does not retry. -/
def is_retryable_error : RequestError → Bool
  | RequestError.connectTimeout => true
  | RequestError.readTimeout => true
  | RequestError.connectionError text =>
    let s := strToLower text
    if strContains s "name or service not known" ∨
       strContains s "getaddrinfo failed" then
      false
    else
      true
  | RequestError.other _ => false

/-- Model of `is_retryable_status_code` (meituan_collector.py lines
574-589): HTTP 5xx and HTTP 429 are retryable. -/
def is_retryable_status_code (status_code : Int) : Bool :=
  if 500 ≤ status_code ∧ status_code < 600 then true
  else if status_code = 429 then true
  else false

/-- One attempt's outcome for `retry_request`: the wrapped request function
either raised or produced a response with a status code. -/
inductive AttemptOutcome where
  | raised (e : RequestError)
  | response (status_code : Int)
deriving DecidableEq, Repr

/-- Whether an attempt outcome is transient in the sense of the retry
helper: a retryable exception or a retryable status code. -/
def transient_outcome : AttemptOutcome → Bool
  | AttemptOutcome.raised e => is_retryable_error e
  | AttemptOutcome.response s => is_retryable_status_code s

/-- The attempt loop of `retry_request` (meituan_collector.py lines
609-639).  `outcome n` is what the n-th attempt (1-based) yields.  Returns
the final result together with the list of attempt indices after which a
backoff sleep was taken (`calculate_retry_delay(attempt)` at lines 616 and
633).  Fuel counts the remaining loop iterations; the source loop runs
`max_attempts` times and every iteration either returns, raises or sleeps
and continues. -/
def retry_request_go (outcome : Nat → AttemptOutcome) (max_attempts : Nat) :
    Nat → Nat → Except RequestError Int × List Nat
  | _, 0 => (Except.error (RequestError.other "no attempts"), [])
  | attempt, fuel + 1 =>
    match outcome attempt with
    | AttemptOutcome.response s =>
      if is_retryable_status_code s ∧ attempt < max_attempts then
        match retry_request_go outcome max_attempts (attempt + 1) fuel with
        | (r, ds) => (r, attempt :: ds)
      else
        (Except.ok s, [])
    | AttemptOutcome.raised e =>
      if ¬ is_retryable_error e then
        (Except.error e, [])
      else if attempt < max_attempts then
        match retry_request_go outcome max_attempts (attempt + 1) fuel with
        | (r, ds) => (r, attempt :: ds)
      else
        (Except.error e, [])

/-- Model of `retry_request` (meituan_collector.py lines 592-641) with the
default `max_attempts = MAX_RETRY_ATTEMPTS`. -/
def retry_request (outcome : Nat → AttemptOutcome) :
    Except RequestError Int × List Nat :=
  retry_request_go outcome MAX_RETRY_ATTEMPTS 1 MAX_RETRY_ATTEMPTS

/-- A portal report template as listed by `get_template_list`: id and
name. -/
structure Template where
  id : Int
  name : String
deriving DecidableEq, Repr

/-- The response of `get_template_list` as consumed by `find_template_id`
(meituan_collector.py lines 1422-1436): the portal return code and
`data.list`. -/
structure TemplateListResp where
  code : Int
  templates : List Template
deriving DecidableEq, Repr

/-- The search priority of `find_template_id` (meituan_collector.py line
1411). -/
def default_template_names : List String := ["Kewen_data", "hdp-all"]

/-- The nested search loop of `find_template_id` (meituan_collector.py
lines 1456-1469): for each search name in priority order, return the first
template in the portal list bearing that name. -/
def find_by_names : List String → List Template → Option Template
  | [], _ => none
  | n :: rest, ts =>
    match ts.find? (fun t => t.name == n) with
    | some t => some t
    | none => find_by_names rest ts

/-- Model of `find_template_id` (meituan_collector.py lines 1395-1479) with
the default search names: fails on a non-200 portal code or an empty list,
otherwise returns the id of the first template named `Kewen_data`, then
`hdp-all`. -/
def find_template_id (resp : TemplateListResp) : Option Int :=
  if resp.code ≠ 200 then none
  else if resp.templates.isEmpty then none
  else
    match find_by_names default_template_names resp.templates with
    | some t => some t.id
    | none => none

/-- The portal's answer to the template-create POST of
`create_report_template` (meituan_collector.py lines 1537-1578): either a
parsed JSON body (code plus the created id in `data`) or a raised request
exception. -/
inductive CreateResp where
  | httpOk (code : Int) (data : Int)
  | requestError (text : String)
deriving DecidableEq, Repr

/-- Model of `create_report_template` (meituan_collector.py lines
1482-1580): refuses without an `mtgsig`, returns the created template id on
portal code 200, fails otherwise. -/
def create_report_template (mtgsig : String) (resp : CreateResp) :
    Option Int :=
  if mtgsig = "" then none
  else
    match resp with
    | CreateResp.httpOk code data => if code = 200 then some data else none
    | CreateResp.requestError _ => none

/-- Outcome of one coordinator write-back endpoint as observed by
`update_template_id_to_backend`: whether the POST raised a request
exception, the HTTP status code, and the `success` field of the parsed
body. -/
structure EndpointResp where
  raised : Bool
  status_code : Int
  success_field : Bool
deriving DecidableEq, Repr

/-- Model of `update_template_id_to_backend` (meituan_collector.py lines
1583-1667): both endpoints are attempted independently; endpoint 1 counts
when its body's `success` field is set (line 1620), endpoint 2 when its
`success` field is set or its HTTP status is 200 (line 1644); the
write-back is reported delivered when at least one endpoint counted (lines
1653-1658). -/
def update_template_id_to_backend (r1 r2 : EndpointResp) : Bool :=
  let c1 : Nat := if ¬ r1.raised ∧ r1.success_field then 1 else 0
  let c2 : Nat := if ¬ r2.raised ∧ (r2.success_field ∨ r2.status_code = 200)
                  then 1 else 0
  decide (1 ≤ c1 + c2)

/-- Observable actions of the template provisioner. -/
inductive TEvent where
  | createTemplate (name : String)
  | postBackendAccounts (account : String) (templates_id : Int)
  | postBackendTemplatesId (account : String) (templates_id : Int)
deriving DecidableEq, Repr

/-- Model of `ensure_template_id` (meituan_collector.py lines 1670-1719):
search the portal list first; on a hit, write the id back and return it; on
a miss, create a template named `Kewen_data` and, if creation succeeded,
write the new id back and return it; otherwise give up. -/
def ensure_template_id (account : String) (mtgsig : String)
    (listResp : TemplateListResp) (createResp : CreateResp)
    (r1 r2 : EndpointResp) : Option Int × Bool × List TEvent :=
  match find_template_id listResp with
  | some tid =>
    (some tid, update_template_id_to_backend r1 r2,
     [TEvent.postBackendAccounts account tid,
      TEvent.postBackendTemplatesId account tid])
  | none =>
    match create_report_template mtgsig createResp with
    | some tid =>
      (some tid, update_template_id_to_backend r1 r2,
       [TEvent.createTemplate "Kewen_data",
        TEvent.postBackendAccounts account tid,
        TEvent.postBackendTemplatesId account tid])
    | none =>
      (none, false,
       if mtgsig = "" then [] else [TEvent.createTemplate "Kewen_data"])

/-- The seven product names of `upload_task_status_batch`
(meituan_collector.py lines 872-880). -/
def ALL_TASK_NAMES : List String :=
  ["store_stats", "kewen_daily_report", "promotion_daily_report",
   "review_detail_dianping", "review_detail_meituan",
   "review_summary_dianping", "review_summary_meituan"]

/-- A per-product task result dict (`task_name`, `success`, `record_count`,
`error_message`), as produced by every extractor. -/
structure TaskResult where
  task_name : String
  success : Bool
  record_count : Nat
  error_message : String
deriving DecidableEq, Repr

/-- One product's slot in the batch status report: status 0 = not run, 2 =
success, 3 = failed (meituan_collector.py lines 889-913). -/
structure ProductStatus where
  task_name : String
  status : Int
  records : Nat
  error : Option String
deriving DecidableEq, Repr

/-- One override step of the batch payload construction
(meituan_collector.py lines 896-913): a result whose name is one of the
seven products overwrites that product's slot with status 2/3, its record
count, and its error message when failed; unknown names are skipped. -/
def apply_result (acc : List ProductStatus) (r : TaskResult) :
    List ProductStatus :=
  if ALL_TASK_NAMES.contains r.task_name then
    acc.map (fun ps =>
      if ps.task_name = r.task_name then
        { ps with status := if r.success then 2 else 3,
                  records := r.record_count,
                  error := if r.success then none else some r.error_message }
      else ps)
  else
    acc

/-- The JSON body assembled by `upload_task_status_batch`
(meituan_collector.py lines 883-913): all seven products initialised to
status 0, then overridden by the supplied results in order. -/
def batch_status_payload (results : List TaskResult) : List ProductStatus :=
  results.foldl apply_result (ALL_TASK_NAMES.map (fun n => ⟨n, 0, 0, none⟩))

/-- Observable external calls of the task orchestrator. -/
inductive MEvent where
  | resetTask (id : Int)
  | emergencyRelease
  | sleepSeconds (seconds : Int)
  | postPlatformAccountsInvalid (account : String)
  | postLog (account : String) (shop_id : Int) (table_name : String)
      (dstart dend : String) (upload_status : Int) (record_count : Nat)
      (error_message : String)
  | postUpdateBatch (account : String) (dstart dend : String)
      (payload : List ProductStatus)
  | taskCallback (id : Int) (status : Int) (error_message : String)
      (retry_add : Int)
deriving DecidableEq, Repr

/-- Model of `is_auth_invalid_error` (meituan_collector.py lines 774-803):
code 401 or 606, or a non-empty message containing one of the three
login-expiry keywords. -/
def is_auth_invalid_error (code : Option Int) (message : Option String) :
    Bool :=
  if code = some 401 ∨ code = some 606 then true
  else
    match message with
    | some m =>
      if m ≠ "" then
        ["未登录", "登录状态失效", "请重新登录"].any (fun k => strContains m k)
      else
        false
    | none => false

/-- Model of `handle_auth_invalid` (meituan_collector.py lines 806-846):
the three-endpoint invalidation fan-out, in order — account status to
`/api/post/platform_accounts`, a failure record to `/api/log`
(`upload_status` 1, via `log_failure`, lines 471-472), and the batch task
status to `/api/account_task/update_batch` with the current task marked
failed and the others not run. -/
def handle_auth_invalid (account dstart dend task_name error_message : String) :
    List MEvent :=
  [MEvent.postPlatformAccountsInvalid account,
   MEvent.postLog account 0 task_name dstart dend 1 0
     ("登录失效: " ++ error_message),
   MEvent.postUpdateBatch account dstart dend
     (batch_status_payload
       [⟨task_name, false, 0, "登录失效: " ++ error_message⟩])]

/-- A parsed portal JSON answer as inspected by the extractors' login
check: `resp_json.get('code')` and `resp_json.get('msg') or
resp_json.get('message') or ''` (meituan_collector.py lines 2133-2134). -/
structure PortalResp where
  code : Option Int
  msg : String
deriving DecidableEq, Repr

/-- Python string rendering of the optional code, as interpolated into the
invalidation error message. -/
def pyShowOptInt : Option Int → String
  | none => "None"
  | some n => toString n

/-- The error text built at meituan_collector.py line 2136 when an
invalidation signal is observed. -/
def auth_invalid_msg (resp : PortalResp) : String :=
  "登录失效 (code=" ++ pyShowOptInt resp.code ++ ", msg=" ++ resp.msg ++ ")"

/-- The invalidation-detection skeleton shared by the extractors
(meituan_collector.py lines 2132-2139 and 2300-2303 for
`kewen_daily_report`; the other six products repeat the same pattern): if
the portal answer carries an invalidation signal, `handle_auth_invalid` is
called and `AuthInvalidError` raised, which the extractor's own handler
turns into a failed result carrying the error text; otherwise the extractor
proceeds and produces `okResult` (the download/parse/upload body is not
modelled). -/
def run_extractor (account dstart dend task_name : String)
    (resp : PortalResp) (okResult : TaskResult) : TaskResult × List MEvent :=
  if is_auth_invalid_error resp.code (some resp.msg) then
    (⟨task_name, false, 0, auth_invalid_msg resp⟩,
     handle_auth_invalid account dstart dend task_name (auth_invalid_msg resp))
  else
    (okResult, [])

/-- Constant `PAGE_ORDER` (meituan_collector.py line 254). -/
def PAGE_ORDER : List String := ["flow_analysis", "report", "review"]

/-- Constant `PAGE_TASKS` (meituan_collector.py lines 247-251). -/
def PAGE_TASKS : String → List String
  | "report" => ["kewen_daily_report", "promotion_daily_report"]
  | "flow_analysis" => ["store_stats"]
  | "review" => ["review_detail_dianping", "review_detail_meituan",
                 "review_summary_dianping", "review_summary_meituan"]
  | _ => []

/-- Constant `TASK_DISABLED_FLAGS` (meituan_collector.py lines 304-312):
the two review-summary products are disabled. -/
def TASK_DISABLED_FLAGS (t : String) : Bool :=
  t == "review_summary_dianping" || t == "review_summary_meituan"

/-- Outcome of `navigate_to_page` for a page (meituan_collector.py lines
5545-5608, consumed at 5796-5841): success, failure that tripped the login
detector (with the `login_invalid_error` text), or an ordinary failure. -/
inductive NavOutcome where
  | ok
  | failedLogin (error_text : String)
  | failedOther
deriving DecidableEq, Repr

/-- Environment oracle for one page-driven task run: the portal answer and
fallback result of each extractor, the navigation outcome of each page, the
outcome of re-navigating after a successful re-login, and the outcomes of
the successive `_try_relogin` calls. -/
structure RunEnv where
  resp : String → PortalResp
  okResult : String → TaskResult
  nav : String → NavOutcome
  navRetry : String → Bool
  relogin : List Bool

/-- Model of `execute_page_tasks` (meituan_collector.py lines 5610-5710):
disabled products are reported as successful without running; each enabled
product runs its extractor in order. -/
def execute_page_tasks (account dstart dend : String) (env : RunEnv)
    (page_key : String) : List TaskResult × List MEvent :=
  let tasks := PAGE_TASKS page_key
  let disabledResults : List TaskResult :=
    (tasks.filter (fun t => TASK_DISABLED_FLAGS t)).map
      (fun t => ⟨t, true, 0, "任务已禁用(默认成功)"⟩)
  let enabled := tasks.filter (fun t => ¬ TASK_DISABLED_FLAGS t)
  let runs := enabled.map
    (fun t => run_extractor account dstart dend t (env.resp t) (env.okResult t))
  (disabledResults ++ runs.map (fun p => p.1), (runs.map (fun p => p.2)).flatten)

/-- The remaining-task marking of the relogin-failure exits
(meituan_collector.py lines 5783-5790 and 5822-5829): every product of the
current and all later pages is reported failed with the login error. -/
def mark_failed_from (pages : List String) (err : String) : List TaskResult :=
  pages.flatMap (fun pk =>
    (PAGE_TASKS pk).map (fun t => ⟨t, false, 0, "Cookie失效且重新登录失败: " ++ err⟩))

/-- The login-expiry scan over a page's results (meituan_collector.py lines
5848-5853): the first result whose error message contains 登录失效 or
Cookie失效 re-arms the `login_invalid` flag with that message. -/
def detect_login_invalid (results : List TaskResult) : Option String :=
  match results.find? (fun r =>
    strContains r.error_message "登录失效" || strContains r.error_message "Cookie失效") with
  | some r => some r.error_message
  | none => none

/-- Outcome of one iteration of the page loop: either the loop breaks with
final extra results and events, or it proceeds to the remaining pages with
this iteration's results and events, the `login_invalid` flag value, and
the remaining re-login oracle. -/
inductive StepOut where
  | halt (results : List TaskResult) (events : List MEvent)
  | next (results : List TaskResult) (events : List MEvent)
      (flag : Option String) (relogins : List Bool)
deriving DecidableEq, Repr

/-- The tail of one page-loop iteration after a successful navigation: run
the page's extractors and apply the post-extraction login scan
(meituan_collector.py lines 5843-5865) — a detected login expiry tries a
re-login and, when it fails, leaves the flag armed for the next iteration
(the `continue` at line 5865). -/
def run_page_after_nav (account dstart dend : String) (env : RunEnv)
    (pk : String) (relogins : List Bool) : StepOut :=
  match execute_page_tasks account dstart dend env pk with
  | (pageResults, pageEvents) =>
    match detect_login_invalid pageResults with
    | none => StepOut.next pageResults pageEvents none relogins
    | some err =>
      match relogins with
      | true :: rl' => StepOut.next pageResults pageEvents none rl'
      | _ :: rl' => StepOut.next pageResults pageEvents (some err) rl'
      | [] => StepOut.next pageResults pageEvents (some err) []

/-- The navigation handling of one page-loop iteration
(meituan_collector.py lines 5796-5841): an ordinary navigation failure
marks the page's products failed and moves on; a login-flagged failure
tries a re-login — on success the page is re-navigated, on failure the full
`handle_auth_invalid` fan-out runs, everything from the current page is
marked failed and the loop breaks. -/
def run_page_body (account dstart dend : String) (env : RunEnv)
    (pk : String) (restPages : List String) (relogins : List Bool) : StepOut :=
  match env.nav pk with
  | NavOutcome.failedOther =>
    StepOut.next ((PAGE_TASKS pk).map
        (fun t => (⟨t, false, 0, "页面跳转失败"⟩ : TaskResult)))
      [] none relogins
  | NavOutcome.failedLogin err =>
    match relogins with
    | true :: rl' =>
      if env.navRetry pk then
        run_page_after_nav account dstart dend env pk rl'
      else
        StepOut.next ((PAGE_TASKS pk).map
            (fun t => (⟨t, false, 0, "重新登录后页面跳转失败"⟩ : TaskResult)))
          [] none rl'
    | _ =>
      StepOut.halt (mark_failed_from (pk :: restPages) err)
        (handle_auth_invalid account dstart dend "page_navigate" err)
  | NavOutcome.ok => run_page_after_nav account dstart dend env pk relogins

/-- One iteration of the page loop (meituan_collector.py lines 5770-5868),
starting with the top-of-loop invalidation check (lines 5772-5791): a
pending invalidation first tries a re-login, and on failure the account is
reported invalid, every product from the current page on is marked failed
and the loop breaks. -/
def run_page_step (account dstart dend : String) (env : RunEnv)
    (pk : String) (restPages : List String) (loginInvalid : Option String)
    (relogins : List Bool) : StepOut :=
  match loginInvalid with
  | some err =>
    match relogins with
    | true :: rl' => run_page_body account dstart dend env pk restPages rl'
    | _ =>
      StepOut.halt (mark_failed_from (pk :: restPages) err)
        [MEvent.postPlatformAccountsInvalid account]
  | none => run_page_body account dstart dend env pk restPages relogins

/-- The page loop of `PageDrivenTaskExecutor.run_all_tasks`
(meituan_collector.py lines 5770-5868): iterate `run_page_step` over the
remaining pages, accumulating results and events, stopping early when a
step halts. -/
def run_pages (account dstart dend : String) (env : RunEnv) :
    List String → Option String → List Bool → List TaskResult × List MEvent
  | [], _, _ => ([], [])
  | pk :: restPages, loginInvalid, relogins =>
    match run_page_step account dstart dend env pk restPages loginInvalid
        relogins with
    | StepOut.halt rs evs => (rs, evs)
    | StepOut.next rs evs flag rl =>
      match run_pages account dstart dend env restPages flag rl with
      | (rs2, evs2) => (rs ++ rs2, evs ++ evs2)

/-- Model of `run_all_tasks` (meituan_collector.py lines 5712-5883) for a
run whose prelude (account load, browser start, template check) succeeds:
the page loop over `PAGE_ORDER`. -/
def run_all_tasks (account dstart dend : String) (env : RunEnv) :
    List TaskResult × List MEvent :=
  run_pages account dstart dend env PAGE_ORDER none env.relogin

/-- The reporting tail of `execute_single_task` for a `task_type = all`
lease (meituan_collector.py lines 6346-6389): run the page-driven sequence,
report the batch status, collect the failed products' messages, and issue
the single task callback — status 2 with `retry_add` 0 when every product
succeeded, status 3 with the joined errors and `retry_add` 1 otherwise. -/
def execute_single_task_all (task_id : Int) (account dstart dend : String)
    (env : RunEnv) : Bool × List MEvent :=
  match run_all_tasks account dstart dend env with
  | (results, runEvents) =>
    let batchEv := MEvent.postUpdateBatch account dstart dend
      (batch_status_payload results)
    let task_errors := (results.filter (fun r => ¬ r.success)).map
      (fun r => "[" ++ r.task_name ++ "] " ++ r.error_message)
    if task_errors.isEmpty then
      (true, runEvents ++ [batchEv, MEvent.taskCallback task_id 2 "" 0])
    else
      (false, runEvents ++
        [batchEv,
         MEvent.taskCallback task_id 3 (String.intercalate "\n" task_errors) 1])

/-- Model of the pre-task resource check of the main loop
(meituan_collector.py lines 6556-6569): on a CRITICAL verdict the lease is
reset (when the task id is truthy), the pool's emergency release runs, the
loop sleeps 30 seconds and the iteration is skipped; otherwise execution
proceeds.  Returns (iteration skipped, events). -/
def pre_task_resource_gate (task_id : Option Int)
    (status : BrowserPool.RStatus) : Bool × List MEvent :=
  if status = BrowserPool.RStatus.critical then
    (true,
     (match task_id with
      | some id => if id ≠ 0 then [MEvent.resetTask id] else []
      | none => []) ++
     [MEvent.emergencyRelease, MEvent.sleepSeconds 30])
  else
    (false, [])

end Collector

namespace ReviewReply

/-- The shape of the dict `process_review_replies` reads off a reply
result: `code`, `success` and `msg` (absent keys read as falsy / empty). -/
structure ReplyDict where
  code : Option Int
  success : Bool
  msg : String
deriving DecidableEq, Repr

/-- Outcome of the portal reply POST inside `reply_review`
(review_reply.py lines 243-252): a parsed JSON body, or any raised
exception with its text. -/
inductive PortalPost where
  | ok (result : ReplyDict)
  | raised (error_text : String)
deriving DecidableEq, Repr

/-- Model of `reply_review` (review_reply.py lines 180-256): the parsed
response on success; on any exception the literal dict
`{"code": -1, "msg": str(e)}` (whose absent `success` key reads as falsy)
instead of propagating. -/
def reply_review (post : PortalPost) : ReplyDict :=
  match post with
  | PortalPost.ok r => r
  | PortalPost.raised e => { code := some (-1), success := false, msg := e }

/-- One pending review task as consumed by `process_review_replies`
(review_reply.py lines 292-297), after the `str(...)` coercions. -/
structure PendingTask where
  review_id : String
  shop_id : String
  user_id : String
  ai_gen : String
  platform : String
deriving DecidableEq, Repr

/-- The statistics dict of `process_review_replies`. -/
structure Stats where
  total : Nat
  success : Nat
  failed : Nat
deriving DecidableEq, Repr

/-- The loop body of `process_review_replies` (review_reply.py lines
292-335): a pending review with a missing required field counts as failed;
otherwise the reply is executed and counts as success when the result
reports code 200 or a truthy `success`, failed otherwise.  Each task is
paired with its portal-POST outcome. -/
def process_one (st : Stats) (tp : PendingTask × PortalPost) : Stats :=
  if tp.1.review_id = "" ∨ tp.1.shop_id = "" ∨ tp.1.ai_gen = "" then
    { st with failed := st.failed + 1 }
  else
    if (reply_review tp.2).code = some 200 ∨ (reply_review tp.2).success then
      { st with success := st.success + 1 }
    else
      { st with failed := st.failed + 1 }

/-- Model of `process_review_replies` (review_reply.py lines 263-343),
folding `process_one` over the pending list with the total pre-set to the
list length (line 283). -/
def process_review_replies (pending : List (PendingTask × PortalPost)) :
    Stats :=
  pending.foldl process_one ⟨pending.length, 0, 0⟩

end ReviewReply

section Theorems

open BrowserPool Collector ReviewReply

/-- Classification of a fresh sample is CRITICAL exactly when a critical
threshold is reached. -/
lemma classify_sample_eq_critical (cpu memory : ℚ) :
    classify_sample cpu memory = RStatus.critical ↔
      (CPU_CRITICAL_THRESHOLD ≤ cpu ∨ MEMORY_CRITICAL_THRESHOLD ≤ memory) := by
  unfold classify_sample
  split_ifs with h1 h2 <;> simp_all

/-- Classification of a fresh sample is WARNING exactly when a warning
threshold, but no critical threshold, is reached. -/
lemma classify_sample_eq_warning (cpu memory : ℚ) :
    classify_sample cpu memory = RStatus.warning ↔
      (¬ (CPU_CRITICAL_THRESHOLD ≤ cpu ∨ MEMORY_CRITICAL_THRESHOLD ≤ memory) ∧
        (CPU_WARNING_THRESHOLD ≤ cpu ∨ MEMORY_WARNING_THRESHOLD ≤ memory)) := by
  unfold classify_sample
  split_ifs with h1 h2 <;> simp_all

/-- Classification of a fresh sample is NORMAL exactly when no threshold is
reached. -/
lemma classify_sample_eq_normal (cpu memory : ℚ) :
    classify_sample cpu memory = RStatus.normal ↔
      (¬ (CPU_CRITICAL_THRESHOLD ≤ cpu ∨ MEMORY_CRITICAL_THRESHOLD ≤ memory) ∧
        ¬ (CPU_WARNING_THRESHOLD ≤ cpu ∨ MEMORY_WARNING_THRESHOLD ≤ memory)) := by
  unfold classify_sample
  split_ifs with h1 h2 <;> simp_all

/-- C6: on every call of the resource monitor's classify operation, if the
last sample is younger than the 30 s sample window the cached verdict is
returned with the state unchanged; otherwise fresh CPU and memory
utilisations are sampled and the verdict is CRITICAL iff cpu ≥ 70 % or
memory ≥ 80 %, else WARNING iff cpu ≥ 50 % or memory ≥ 60 %, else NORMAL —
the worst dimension wins. -/
theorem C6_resource_monitor_classify (m : ResourceMonitor) (now : Int)
    (cpu memory : ℚ) :
    (∀ t, m.last_check_time = some t → now - t < RESOURCE_CHECK_INTERVAL →
      check_status m now cpu memory false = (m.cached_status, m)) ∧
    ((m.last_check_time = none ∨
        ∃ t, m.last_check_time = some t ∧ RESOURCE_CHECK_INTERVAL ≤ now - t) →
      ((check_status m now cpu memory false).1 = RStatus.critical ↔
        (CPU_CRITICAL_THRESHOLD ≤ cpu ∨ MEMORY_CRITICAL_THRESHOLD ≤ memory)) ∧
      ((check_status m now cpu memory false).1 = RStatus.warning ↔
        (¬ (CPU_CRITICAL_THRESHOLD ≤ cpu ∨ MEMORY_CRITICAL_THRESHOLD ≤ memory) ∧
          (CPU_WARNING_THRESHOLD ≤ cpu ∨ MEMORY_WARNING_THRESHOLD ≤ memory))) ∧
      ((check_status m now cpu memory false).1 = RStatus.normal ↔
        (¬ (CPU_CRITICAL_THRESHOLD ≤ cpu ∨ MEMORY_CRITICAL_THRESHOLD ≤ memory) ∧
          ¬ (CPU_WARNING_THRESHOLD ≤ cpu ∨ MEMORY_WARNING_THRESHOLD ≤ memory)))) := by
  constructor
  · intro t ht hlt
    simp [check_status, ht, hlt]
  · intro h
    rcases h with hnone | ⟨t, ht, hge⟩
    · simp [check_status, hnone, classify_sample_eq_critical,
        classify_sample_eq_warning, classify_sample_eq_normal]
    · have hnl : ¬ (now - t < RESOURCE_CHECK_INTERVAL) := not_lt.mpr hge
      simp [check_status, ht, hnl, classify_sample_eq_critical,
        classify_sample_eq_warning, classify_sample_eq_normal]

/-- Witness for C6: a monitor sampled at time 0 and asked again at time 10
returns its cached WARNING even for a critical utilisation, and asked at
time 50 (outside the window) returns CRITICAL for cpu 90 %. -/
theorem C6_resource_monitor_classify_witness :
    check_status ⟨some 0, RStatus.warning, 0, 0⟩ 10 90 10 false
      = (RStatus.warning, ⟨some 0, RStatus.warning, 0, 0⟩) ∧
    (check_status ⟨some 0, RStatus.warning, 0, 0⟩ 50 90 10 false).1
      = RStatus.critical := by
  constructor
  · exact (C6_resource_monitor_classify ⟨some 0, RStatus.warning, 0, 0⟩
      10 90 10).1 0 rfl (by decide)
  · exact ((C6_resource_monitor_classify ⟨some 0, RStatus.warning, 0, 0⟩
      50 90 10).2 (Or.inr ⟨0, rfl, by decide⟩)).1.mpr
      (Or.inl (by norm_num [CPU_CRITICAL_THRESHOLD]))

/-- C9: the keepalive batch returns the sentinel -1 and does nothing when
the resource gate refuses, and returns 0 (also doing nothing) when the gate
passes but no pooled account is due; the two cases are distinguishable by
the return value. -/
theorem C9_keepalive_batch_sentinel (st : KeepaliveState) (now : Int)
    (safe : Nat → Bool) :
    (safe 0 = false → perform_keepalive_batch st now safe = (-1, st, [])) ∧
    (safe 0 = true → get_accounts_needing_keepalive st now = [] →
      perform_keepalive_batch st now safe = (0, st, [])) := by
  constructor
  · intro h
    simp [perform_keepalive_batch, h]
  · intro h hacc
    simp [perform_keepalive_batch, h, hacc]

/-- Witness for C9: on an empty pool, a refusing gate yields -1 and a
passing gate yields 0. -/
theorem C9_keepalive_batch_sentinel_witness :
    perform_keepalive_batch ⟨[], [], ⟨1000, []⟩, []⟩ 0 (fun _ => false)
      = (-1, ⟨[], [], ⟨1000, []⟩, []⟩, []) ∧
    perform_keepalive_batch ⟨[], [], ⟨1000, []⟩, []⟩ 0 (fun _ => true)
      = (0, ⟨[], [], ⟨1000, []⟩, []⟩, []) :=
  ⟨(C9_keepalive_batch_sentinel _ _ _).1 rfl,
   (C9_keepalive_batch_sentinel _ _ _).2 rfl (by decide)⟩

/-- One step of the review-reply loop preserves the total and adds exactly
one success-or-failure. -/
lemma process_one_stats (st : Stats) (tp : PendingTask × PortalPost) :
    (process_one st tp).total = st.total ∧
    (process_one st tp).success + (process_one st tp).failed
      = st.success + st.failed + 1 := by
  unfold process_one
  split_ifs <;> simp <;> omega

/-- Folding the review-reply loop body preserves the total and adds exactly
one success-or-failure per element. -/
lemma process_fold_stats (l : List (PendingTask × PortalPost)) :
    ∀ init : Stats,
      (l.foldl process_one init).total = init.total ∧
      (l.foldl process_one init).success + (l.foldl process_one init).failed
        = init.success + init.failed + l.length := by
  induction l with
  | nil => intro init; simp
  | cons hd tl ih =>
    intro init
    have h := ih (process_one init hd)
    have h1 := process_one_stats init hd
    refine ⟨?_, ?_⟩
    · rw [List.foldl_cons, h.1, h1.1]
    · rw [List.foldl_cons, h.2, h1.2]
      simp [List.length_cons]
      omega

/-- C10: reply_review is total — on any exception from the portal POST it
returns the dict with code -1 and the error text instead of propagating —
and process_review_replies therefore counts each pending review as exactly
one of success or failed: the totals always add up. -/
theorem C10_reply_review_total :
    (∀ e : String,
      reply_review (PortalPost.raised e) = ⟨some (-1), false, e⟩) ∧
    (∀ pending : List (PendingTask × PortalPost),
      (process_review_replies pending).total = pending.length ∧
      (process_review_replies pending).success
          + (process_review_replies pending).failed
        = (process_review_replies pending).total) := by
  refine ⟨fun e => rfl, fun pending => ?_⟩
  have h := process_fold_stats pending ⟨pending.length, 0, 0⟩
  unfold process_review_replies
  exact ⟨h.1, by rw [h.1, h.2]; simp⟩

/-- C2 counterexample: with a CRITICAL verdict just before executing lease
42, the main loop's trace contains the pool's emergency release — the
browser pool is touched, contrary to the claim's expected
reset-sleep-continue-only behaviour. -/
theorem C2_counterexample_pool_touched :
    MEvent.emergencyRelease ∈
      (pre_task_resource_gate (some 42) RStatus.critical).2 ∧
    (pre_task_resource_gate (some 42) RStatus.critical).2
      ≠ [MEvent.resetTask 42, MEvent.sleepSeconds 30] := by
  decide

/-- C2 (amended): when the pre-task resource check reports CRITICAL, the
lease is reset via the reset endpoint, the pool's emergency release is
invoked, the loop sleeps 30 seconds and the iteration is skipped, so no
task work is performed; on any other verdict execution proceeds with no
gate action. -/
theorem C2_pre_task_critical (id : Int) (h : id ≠ 0) :
    pre_task_resource_gate (some id) RStatus.critical
      = (true, [MEvent.resetTask id, MEvent.emergencyRelease,
                MEvent.sleepSeconds 30]) ∧
    (∀ s, s ≠ RStatus.critical →
      pre_task_resource_gate (some id) s = (false, [])) := by
  constructor
  · simp [pre_task_resource_gate, h]
  · intro s hs
    simp [pre_task_resource_gate, hs]

/-- Witness for C2 (amended) at lease id 42. -/
theorem C2_pre_task_critical_witness :
    pre_task_resource_gate (some 42) RStatus.critical
      = (true, [MEvent.resetTask 42, MEvent.emergencyRelease,
                MEvent.sleepSeconds 30]) ∧
    pre_task_resource_gate (some 42) RStatus.normal = (false, []) :=
  ⟨(C2_pre_task_critical 42 (by decide)).1,
   (C2_pre_task_critical 42 (by decide)).2 RStatus.normal (by decide)⟩

/-- The retry loop makes at most `maxA - attempt` further sleeps when
entered at `attempt` with matching fuel, and every recorded sleep follows a
transient outcome strictly before the last allowed attempt. -/
lemma retry_go_spec (outcome : Nat → AttemptOutcome) (maxA : Nat) :
    ∀ fuel attempt, attempt + fuel = maxA + 1 →
      (retry_request_go outcome maxA attempt fuel).2.length ≤ maxA - attempt ∧
      ∀ d ∈ (retry_request_go outcome maxA attempt fuel).2,
        transient_outcome (outcome d) = true ∧ attempt ≤ d ∧ d < maxA := by
  intro fuel
  induction fuel with
  | zero =>
    intro attempt h
    simp [retry_request_go]
  | succ n ih =>
    intro attempt h
    have hrec := ih (attempt + 1) (by omega)
    cases hout : outcome attempt with
    | response s =>
      by_cases hc : is_retryable_status_code s ∧ attempt < maxA
      · cases hr : retry_request_go outcome maxA (attempt + 1) n with
        | mk r ds =>
          have hgo : retry_request_go outcome maxA attempt (n + 1)
              = (r, attempt :: ds) := by
            unfold retry_request_go
            rw [hout]
            simp [hc, hr]
          rw [hr] at hrec
          rw [hgo]
          refine ⟨?_, ?_⟩
          · simp only [List.length_cons]
            have hlen : ds.length ≤ maxA - (attempt + 1) := by
              simpa using hrec.1
            omega
          · intro d hd
            rcases List.mem_cons.mp hd with hd1 | hd2
            · subst hd1
              exact ⟨by simp [transient_outcome, hout, hc.1], le_refl _, hc.2⟩
            · have := hrec.2 d hd2
              exact ⟨this.1, by omega, this.2.2⟩
      · have hgo : retry_request_go outcome maxA attempt (n + 1)
            = (Except.ok s, []) := by
          unfold retry_request_go
          rw [hout]
          simp [hc]
        rw [hgo]
        simp
    | raised e =>
      by_cases he : is_retryable_error e = true
      · by_cases hlt : attempt < maxA
        · cases hr : retry_request_go outcome maxA (attempt + 1) n with
          | mk r ds =>
            have hgo : retry_request_go outcome maxA attempt (n + 1)
                = (r, attempt :: ds) := by
              unfold retry_request_go
              rw [hout]
              simp [he, hlt, hr]
            rw [hr] at hrec
            rw [hgo]
            refine ⟨?_, ?_⟩
            · simp only [List.length_cons]
              have hlen : ds.length ≤ maxA - (attempt + 1) := by
                simpa using hrec.1
              omega
            · intro d hd
              rcases List.mem_cons.mp hd with hd1 | hd2
              · subst hd1
                exact ⟨by simp [transient_outcome, hout, he], le_refl _, hlt⟩
              · have := hrec.2 d hd2
                exact ⟨this.1, by omega, this.2.2⟩
        · have hgo : retry_request_go outcome maxA attempt (n + 1)
              = (Except.error e, []) := by
            unfold retry_request_go
            rw [hout]
            simp [he, hlt]
          rw [hgo]
          simp
      · have hgo : retry_request_go outcome maxA attempt (n + 1)
            = (Except.error e, []) := by
          unfold retry_request_go
          rw [hout]
          simp [he]
        rw [hgo]
        simp

/-- C8: the HTTP retry helper makes at most 3 attempts, retries only on
transient outcomes (connect/read timeouts, connection errors excluding DNS
failures, HTTP 5xx, HTTP 429), and the backoff slept before retrying after
attempt n has base value min(2·2^(n-1), 60) seconds with the random jitter
bounded by a quarter of the base. -/
theorem C8_retry_helper :
    (∀ outcome : Nat → AttemptOutcome,
      (retry_request outcome).2.length + 1 ≤ MAX_RETRY_ATTEMPTS) ∧
    (∀ outcome : Nat → AttemptOutcome, ∀ d ∈ (retry_request outcome).2,
      transient_outcome (outcome d) = true ∧ 1 ≤ d ∧ d < MAX_RETRY_ATTEMPTS) ∧
    (∀ e, is_retryable_error e = true ↔
      (e = RequestError.connectTimeout ∨ e = RequestError.readTimeout ∨
       ∃ s, e = RequestError.connectionError s ∧
         strContains (strToLower s) "name or service not known" = false ∧
         strContains (strToLower s) "getaddrinfo failed" = false)) ∧
    (∀ s : Int, is_retryable_status_code s = true ↔
      ((500 ≤ s ∧ s < 600) ∨ s = 429)) ∧
    (∀ (n : Nat) (r : ℚ), 1 ≤ n → 0 ≤ r → r ≤ 1 →
      calculate_retry_delay n r
          = min (2 * 2 ^ (n - 1)) 60 * (1 + (2 * r - 1) / 4) ∧
      min (2 * 2 ^ (n - 1)) 60 - min (2 * 2 ^ (n - 1)) 60 / 4
          ≤ calculate_retry_delay n r ∧
      calculate_retry_delay n r
          ≤ min (2 * 2 ^ (n - 1)) 60 + min (2 * 2 ^ (n - 1)) 60 / 4) := by
  refine ⟨?_, ?_, ?_, ?_, ?_⟩
  · intro outcome
    have h := retry_go_spec outcome MAX_RETRY_ATTEMPTS MAX_RETRY_ATTEMPTS 1
      (by simp [MAX_RETRY_ATTEMPTS])
    unfold retry_request
    have := h.1
    simp [MAX_RETRY_ATTEMPTS] at this ⊢
    omega
  · intro outcome d hd
    have h := retry_go_spec outcome MAX_RETRY_ATTEMPTS MAX_RETRY_ATTEMPTS 1
      (by simp [MAX_RETRY_ATTEMPTS])
    exact h.2 d hd
  · intro e
    cases e with
    | connectTimeout => simp [is_retryable_error]
    | readTimeout => simp [is_retryable_error]
    | connectionError s =>
      cases hA : strContains (strToLower s) "name or service not known" <;>
        cases hB : strContains (strToLower s) "getaddrinfo failed" <;>
          simp [is_retryable_error, hA, hB]
    | other t => simp [is_retryable_error]
  · intro s
    unfold is_retryable_status_code
    split_ifs with h1 h2 <;> simp_all
  · intro n r hn hr0 hr1
    have hbase : (0 : ℚ) ≤ min (2 * 2 ^ (n - 1)) 60 :=
      le_min (by positivity) (by norm_num)
    refine ⟨?_, ?_, ?_⟩
    · unfold calculate_retry_delay INITIAL_RETRY_DELAY RETRY_BACKOFF_FACTOR
        MAX_RETRY_DELAY
      ring
    · unfold calculate_retry_delay INITIAL_RETRY_DELAY RETRY_BACKOFF_FACTOR
        MAX_RETRY_DELAY
      nlinarith [mul_nonneg hbase hr0, mul_nonneg hbase (sub_nonneg.mpr hr1)]
    · unfold calculate_retry_delay INITIAL_RETRY_DELAY RETRY_BACKOFF_FACTOR
        MAX_RETRY_DELAY
      nlinarith [mul_nonneg hbase hr0, mul_nonneg hbase (sub_nonneg.mpr hr1)]

/-- Witness for C8: with a first attempt answered HTTP 503 and a second
answered 200, the helper stays within 3 attempts and its only retry
followed the transient 503; the first backoff at r = 1/2 equals the 2 s
base exactly. -/
theorem C8_retry_helper_witness :
    ((retry_request (fun n => if n = 1 then AttemptOutcome.response 503
        else AttemptOutcome.response 200)).2.length + 1 ≤ MAX_RETRY_ATTEMPTS) ∧
    (transient_outcome ((fun n : Nat => if n = 1 then AttemptOutcome.response 503
        else AttemptOutcome.response 200) 1) = true ∧
      1 ≤ 1 ∧ 1 < MAX_RETRY_ATTEMPTS) ∧
    calculate_retry_delay 1 (1 / 2)
      = min (2 * 2 ^ (1 - 1)) 60 * (1 + (2 * (1 / 2 : ℚ) - 1) / 4) := by
  refine ⟨C8_retry_helper.1 _,
    C8_retry_helper.2.1
      (fun n => if n = 1 then AttemptOutcome.response 503
        else AttemptOutcome.response 200) 1 (by decide),
    (C8_retry_helper.2.2.2.2 1 (1 / 2) (by norm_num) (by norm_num)
      (by norm_num)).1⟩

/-- C7: the report-template provisioner searches the portal list for
`Kewen_data` first and `hdp-all` second, returning the id of the first
match; when neither exists it creates a template named `Kewen_data`; any
obtained id is written back to the two coordinator endpoints; and the
write-back is reported delivered exactly when at least one of the two
endpoints succeeds. -/
theorem C7_template_provisioner (account mtgsig : String)
    (resp : TemplateListResp) (createResp : CreateResp)
    (r1 r2 : EndpointResp) :
    (resp.code = 200 → resp.templates ≠ [] →
      (∀ t0, resp.templates.find? (fun t => t.name == "Kewen_data") = some t0 →
        find_template_id resp = some t0.id) ∧
      (resp.templates.find? (fun t => t.name == "Kewen_data") = none →
        ∀ t1, resp.templates.find? (fun t => t.name == "hdp-all") = some t1 →
          find_template_id resp = some t1.id) ∧
      (resp.templates.find? (fun t => t.name == "Kewen_data") = none →
        resp.templates.find? (fun t => t.name == "hdp-all") = none →
        find_template_id resp = none)) ∧
    (∀ tid delivered events,
      ensure_template_id account mtgsig resp createResp r1 r2
          = (some tid, delivered, events) →
      TEvent.postBackendAccounts account tid ∈ events ∧
      TEvent.postBackendTemplatesId account tid ∈ events ∧
      (find_template_id resp = none →
        TEvent.createTemplate "Kewen_data" ∈ events) ∧
      delivered = update_template_id_to_backend r1 r2) ∧
    (update_template_id_to_backend r1 r2 = true ↔
      ((¬ r1.raised ∧ r1.success_field = true) ∨
       (¬ r2.raised ∧ (r2.success_field = true ∨ r2.status_code = 200)))) := by
  refine ⟨?_, ?_, ?_⟩
  · intro hcode hne
    have hempty : resp.templates.isEmpty = false := by
      cases h : resp.templates with
      | nil => exact absurd h hne
      | cons a l => simp [h]
    refine ⟨?_, ?_, ?_⟩
    · intro t0 h0
      simp [find_template_id, hcode, hempty, find_by_names,
        default_template_names, h0]
    · intro h0 t1 h1
      simp [find_template_id, hcode, hempty, find_by_names,
        default_template_names, h0, h1]
    · intro h0 h1
      simp [find_template_id, hcode, hempty, find_by_names,
        default_template_names, h0, h1]
  · intro tid delivered events h
    unfold ensure_template_id at h
    cases hf : find_template_id resp with
    | some tf =>
      rw [hf] at h
      injection h with h1 h2
      injection h2 with h2 h3
      cases h1
      subst h2
      subst h3
      simp
    | none =>
      rw [hf] at h
      cases hc : create_report_template mtgsig createResp with
      | some tc =>
        rw [hc] at h
        injection h with h1 h2
        injection h2 with h2 h3
        cases h1
        subst h2
        subst h3
        simp
      | none =>
        rw [hc] at h
        simp at h
  · rcases r1 with ⟨a1, c1, s1⟩
    rcases r2 with ⟨a2, c2, s2⟩
    unfold update_template_id_to_backend
    cases a1 <;> cases s1 <;> cases a2 <;> cases s2 <;>
      by_cases hs : c2 = 200 <;> simp_all

/-- Witness for C7: a list lacking `Kewen_data` but holding `hdp-all` with
id 7 resolves to id 7, the write-back events for both endpoints are
emitted, and delivery holds with only the second endpoint succeeding. -/
theorem C7_template_provisioner_witness :
    find_template_id ⟨200, [⟨5, "other"⟩, ⟨7, "hdp-all"⟩]⟩ = some 7 ∧
    TEvent.postBackendAccounts "A1" 7 ∈
      (ensure_template_id "A1" "sig" ⟨200, [⟨5, "other"⟩, ⟨7, "hdp-all"⟩]⟩
        (CreateResp.httpOk 200 9) ⟨true, 500, false⟩ ⟨false, 200, false⟩).2.2 ∧
    update_template_id_to_backend ⟨true, 500, false⟩ ⟨false, 200, false⟩
      = true := by
  have h := C7_template_provisioner "A1" "sig"
    ⟨200, [⟨5, "other"⟩, ⟨7, "hdp-all"⟩]⟩ (CreateResp.httpOk 200 9)
    ⟨true, 500, false⟩ ⟨false, 200, false⟩
  refine ⟨(h.1 rfl (by decide)).2.1 (by decide) ⟨7, "hdp-all"⟩ (by decide),
    ?_, h.2.2.mpr (Or.inr (by decide))⟩
  exact (h.2.1 7 (update_template_id_to_backend ⟨true, 500, false⟩
    ⟨false, 200, false⟩) _ (by decide)).1

/-- C4 (amended): whenever a keepalive attempt is counted as successful and
the upload queue is below capacity at that moment, a cookie-upload envelope
for the account is appended to the queue, and the enqueue event strictly
precedes the advance of `last_keepalive` in the attempt's trace. -/
theorem C4_keepalive_enqueue_before_advance (st : KeepaliveState) (now : Int)
    (a : String) (hroom : st.queue.items.length < st.queue.max_size)
    (hok : (keepalive_single st now a).1 = true) :
    (keepalive_single st now a).2.2
      = [KEvent.navigate a KEEPALIVE_PAGE_URL, KEvent.enqueueCookie a,
         KEvent.updateLastKeepalive a] ∧
    ∃ cs, (keepalive_single st now a).2.1.queue.items
      = st.queue.items ++ [⟨a, cs, now⟩] := by
  by_cases hlock : a ∈ st.locked_accounts
  · simp [keepalive_single, hlock] at hok
  · cases hlook : st.contexts.lookup a with
    | none => simp [keepalive_single, hlock, hlook] at hok
    | some w =>
      cases hp : w.probe with
      | ctxInvalid => simp [keepalive_single, hlock, hlook, hp] at hok
      | gotoFailed => simp [keepalive_single, hlock, hlook, hp] at hok
      | urlReadFailed => simp [keepalive_single, hlock, hlook, hp] at hok
      | pageUrl url =>
        by_cases hlogin : Collector.strContains (Collector.strToLower url) "login" = true
        · simp [keepalive_single, hlock, hlook, hp, hlogin] at hok
        · refine ⟨?_, w.current_cookies, ?_⟩
          · simp [keepalive_single, hlock, hlook, hp, hlogin, hroom]
          · simp [keepalive_single, hlock, hlook, hp, hlogin, hroom,
              update_context, CookieUploadQueue.put]

/-- A context wrapper whose next keepalive succeeds: probe lands on a
non-login page and cookies are readable. -/
def c4_wrapper : ContextWrapper :=
  ⟨0, [], 0, none, KeepaliveProbe.pageUrl "https://e.dianping.com/ok",
   [("k", "v")]⟩

/-- A one-account pool with an empty upload queue. -/
def c4_room_state : KeepaliveState :=
  ⟨[("A", c4_wrapper)], [], ⟨COOKIE_UPLOAD_QUEUE_SIZE, []⟩, []⟩

/-- Witness for C4 (amended): on the one-account pool with queue room, the
successful keepalive emits navigate, enqueue, then the last-keepalive
advance, and the envelope lands on the queue. -/
theorem C4_keepalive_enqueue_before_advance_witness :
    (keepalive_single c4_room_state 5 "A").2.2
      = [KEvent.navigate "A" KEEPALIVE_PAGE_URL, KEvent.enqueueCookie "A",
         KEvent.updateLastKeepalive "A"] ∧
    ∃ cs, (keepalive_single c4_room_state 5 "A").2.1.queue.items
      = c4_room_state.queue.items ++ [⟨"A", cs, 5⟩] :=
  C4_keepalive_enqueue_before_advance c4_room_state 5 "A" (by decide)
    (by decide)

/-- A one-account pool whose upload queue already holds
`COOKIE_UPLOAD_QUEUE_SIZE` envelopes. -/
def c4_full_state : KeepaliveState :=
  ⟨[("A", c4_wrapper)], [],
   ⟨COOKIE_UPLOAD_QUEUE_SIZE,
    List.replicate COOKIE_UPLOAD_QUEUE_SIZE ⟨"X", [], 0⟩⟩, []⟩

set_option maxRecDepth 100000 in
/-- C4 counterexample: with the upload queue at capacity, the keepalive
attempt is still counted successful and `last_keepalive` is advanced, but
no envelope for the account is enqueued — the new snapshot is dropped by
the full queue. -/
theorem C4_counterexample_full_queue :
    (keepalive_single c4_full_state 5 "A").1 = true ∧
    KEvent.enqueueCookie "A" ∉ (keepalive_single c4_full_state 5 "A").2.2 ∧
    (keepalive_single c4_full_state 5 "A").2.1.queue.items
      = c4_full_state.queue.items ∧
    ((keepalive_single c4_full_state 5 "A").2.1.contexts.lookup "A").map
      (fun w => w.last_keepalive_at) = some (some 5) := by
  refine ⟨by decide, by decide, by decide, by decide⟩

/-- The per-account loop counts at most one success per batch entry. -/
lemma keepalive_batch_go_le (now : Int) (safe : Nat → Bool) :
    ∀ (l : List String) (st : KeepaliveState) (i : Nat),
      (keepalive_batch_go now safe st l i).1 ≤ l.length := by
  intro l
  induction l with
  | nil =>
    intro st i
    simp [keepalive_batch_go]
  | cons a rest ih =>
    intro st i
    unfold keepalive_batch_go
    split
    · simp
    · have h1 := ih (keepalive_single st now a).2.1 (i + 1)
      show (if (keepalive_single st now a).1 then 1 else 0)
          + (keepalive_batch_go now safe (keepalive_single st now a).2.1
              rest (i + 1)).1
          ≤ (a :: rest).length
      simp only [List.length_cons]
      cases h2 : (keepalive_single st now a).1 <;> simp <;> omega

/-- The sort key of an account never kept alive or overdue when it entered
the candidate list. -/
lemma mem_keepalive_pending (st : KeepaliveState) (now : Int)
    (p : String × Option Int) (hp : p ∈ keepalive_pending st now) :
    is_in_cooldown st now p.1 = false ∧
    ∃ w, (p.1, w) ∈ st.contexts ∧
      (w.last_keepalive_at = none ∨
       ∃ t, w.last_keepalive_at = some t ∧ KEEPALIVE_INTERVAL ≤ now - t) := by
  unfold keepalive_pending at hp
  rcases List.mem_filterMap.mp hp with ⟨q, hq, hstep⟩
  by_cases hc : is_in_cooldown st now q.1 = true
  · rw [if_pos hc] at hstep
    cases hstep
  · rw [if_neg hc] at hstep
    cases hkt : q.2.last_keepalive_at with
    | none =>
      rw [hkt] at hstep
      have hstep' : some (q.1, (none : Option Int)) = some p := hstep
      injection hstep' with hstep'
      have h1 : p.1 = q.1 := by rw [← hstep']
      refine ⟨?_, q.2, ?_, Or.inl hkt⟩
      · rw [h1]
        simpa using hc
      · rw [h1]
        exact hq
    | some t =>
      rw [hkt] at hstep
      have hstep' :
          (if KEEPALIVE_INTERVAL ≤ now - t then some (q.1, some t) else none)
            = some p := hstep
      by_cases hd : KEEPALIVE_INTERVAL ≤ now - t
      · rw [if_pos hd] at hstep'
        injection hstep' with hstep'
        have h1 : p.1 = q.1 := by rw [← hstep']
        refine ⟨?_, q.2, ?_, Or.inr ⟨t, hkt, hd⟩⟩
        · rw [h1]
          simpa using hc
        · rw [h1]
          exact hq
      · rw [if_neg hd] at hstep'
        cases hstep'

/-- The context wrapper of account A in the two-accounts-and-a-cooldown
scenario: keepalive 70 minutes ago, next navigation lands on the notice
page. -/
def c5_wA : ContextWrapper :=
  ⟨0, [], 0, some (100000 - 4200),
   KeepaliveProbe.pageUrl "https://e.dianping.com/notice", [("ck", "v")]⟩

/-- Account B: keepalive 30 minutes ago — not yet due. -/
def c5_wB : ContextWrapper :=
  ⟨0, [], 0, some (100000 - 1800),
   KeepaliveProbe.pageUrl "https://e.dianping.com/notice", []⟩

/-- Account C: keepalive two hours ago, but in failure cooldown. -/
def c5_wC : ContextWrapper :=
  ⟨0, [], 0, some (100000 - 7200),
   KeepaliveProbe.pageUrl "https://e.dianping.com/notice", []⟩

/-- The pool of the batch-selection scenario: accounts A, B and C, with C
on cooldown for another 5 minutes, and an empty upload queue. -/
def c5_state : KeepaliveState :=
  ⟨[("A", c5_wA), ("B", c5_wB), ("C", c5_wC)], [("C", 100000 + 300)],
   ⟨COOKIE_UPLOAD_QUEUE_SIZE, []⟩, []⟩

/-- C5: the batch selects at most 2 accounts, every selected account is out
of cooldown and overdue (last keepalive ≥ 60 min old or never set), the
candidates are ordered most-overdue first; and in the concrete scenario —
A 70 min overdue, B 30 min (not due), C in cooldown — it picks only A,
performs one navigation, enqueues one cookie envelope and returns 1. -/
theorem C5_keepalive_batch_selection :
    (∀ (st : KeepaliveState) (now : Int),
      List.Sorted pendingLE ((keepalive_pending st now).insertionSort pendingLE)) ∧
    (∀ (st : KeepaliveState) (now : Int), ∀ a ∈ get_accounts_needing_keepalive st now,
      is_in_cooldown st now a = false ∧
      ∃ w, (a, w) ∈ st.contexts ∧
        (w.last_keepalive_at = none ∨
         ∃ t, w.last_keepalive_at = some t ∧ KEEPALIVE_INTERVAL ≤ now - t)) ∧
    (∀ (st : KeepaliveState) (now : Int) (safe : Nat → Bool),
      (perform_keepalive_batch st now safe).1 ≤ (KEEPALIVE_BATCH_SIZE : Int)) ∧
    (get_accounts_needing_keepalive c5_state 100000 = ["A"] ∧
     (perform_keepalive_batch c5_state 100000 (fun _ => true)).1 = 1 ∧
     (perform_keepalive_batch c5_state 100000 (fun _ => true)).2.2
       = [KEvent.navigate "A" KEEPALIVE_PAGE_URL, KEvent.enqueueCookie "A",
          KEvent.updateLastKeepalive "A"] ∧
     (perform_keepalive_batch c5_state 100000 (fun _ => true)).2.1.queue.items.length
       = 1) := by
  refine ⟨?_, ?_, ?_, ?_⟩
  · intro st now
    exact List.sorted_insertionSort pendingLE (keepalive_pending st now)
  · intro st now a ha
    unfold get_accounts_needing_keepalive at ha
    rcases List.mem_map.mp ha with ⟨p, hp, hpa⟩
    have hp' : p ∈ keepalive_pending st now :=
      (List.perm_insertionSort pendingLE (keepalive_pending st now)).mem_iff.mp hp
    have h := mem_keepalive_pending st now p hp'
    rw [hpa] at h
    exact h
  · intro st now safe
    by_cases h0 : safe 0 = true
    · by_cases hemp : (get_accounts_needing_keepalive st now).isEmpty = true
      · simp [perform_keepalive_batch, h0, hemp, KEEPALIVE_BATCH_SIZE]
      · have hle := keepalive_batch_go_le now safe
          ((get_accounts_needing_keepalive st now).take KEEPALIVE_BATCH_SIZE) st 1
        have htake : ((get_accounts_needing_keepalive st now).take
            KEEPALIVE_BATCH_SIZE).length ≤ KEEPALIVE_BATCH_SIZE := by
          rw [List.length_take]
          exact Nat.min_le_left _ _
        have hres : (perform_keepalive_batch st now safe).1
            = ((keepalive_batch_go now safe st
                ((get_accounts_needing_keepalive st now).take
                  KEEPALIVE_BATCH_SIZE) 1).1 : Int) := by
          simp [perform_keepalive_batch, h0, hemp]
        rw [hres]
        exact_mod_cast le_trans hle htake
    · have hres : (perform_keepalive_batch st now safe).1 = -1 := by
        simp [perform_keepalive_batch, h0]
      rw [hres]
      norm_num [KEEPALIVE_BATCH_SIZE]
  · refine ⟨by decide, by decide, by decide, by decide⟩

/-- Witness for C5: the membership conjunct instantiated on the concrete
scenario — A is selected, is out of cooldown, and is 70 minutes overdue. -/
theorem C5_keepalive_batch_selection_witness :
    is_in_cooldown c5_state 100000 "A" = false ∧
    ∃ w, ("A", w) ∈ c5_state.contexts ∧
      (w.last_keepalive_at = none ∨
       ∃ t, w.last_keepalive_at = some t ∧ KEEPALIVE_INTERVAL ≤ 100000 - t) :=
  C5_keepalive_batch_selection.2.1 c5_state 100000 "A" (by decide)

/-- Per-slot counts bounded by the cap bound the total. -/
lemma pool_count_sum_le (c : Nat) :
    ∀ l : List (Option Browser),
      (∀ ob ∈ l, slot_count ob ≤ c) → pool_count_sum l ≤ l.length * c := by
  intro l
  induction l with
  | nil => intro _; simp [pool_count_sum]
  | cons hd tl ih =>
    intro h
    have h1 : slot_count hd ≤ c := h hd (List.mem_cons_self hd tl)
    have h2 := ih (fun ob hob => h ob (List.mem_cons_of_mem hd hob))
    simp only [pool_count_sum, List.map_cons, List.sum_cons, List.length_cons]
      at h2 ⊢
    have hmul1 : (1 + tl.length) * c = tl.length * c + c := by ring
    have hmul2 : (tl.length + 1) * c = tl.length * c + c := by ring
    omega

/-- When the total equals length times the cap and each slot respects the
cap, every slot sits exactly at the cap. -/
lemma slot_count_eq_of_sum (c : Nat) :
    ∀ l : List (Option Browser),
      (∀ ob ∈ l, slot_count ob ≤ c) →
      pool_count_sum l = l.length * c →
      ∀ ob ∈ l, slot_count ob = c := by
  intro l
  induction l with
  | nil => intro _ _ ob hob; cases hob
  | cons hd tl ih =>
    intro hub hsum ob hob
    have h1 : slot_count hd ≤ c := hub hd (List.mem_cons_self hd tl)
    have hubtl : ∀ ob ∈ tl, slot_count ob ≤ c :=
      fun ob hob => hub ob (List.mem_cons_of_mem hd hob)
    have h2 := pool_count_sum_le c tl hubtl
    simp only [pool_count_sum, List.map_cons, List.sum_cons, List.length_cons]
      at hsum
    have hcc1 : (1 + tl.length) * c = tl.length * c + c := by ring
    have hcc2 : (tl.length + 1) * c = tl.length * c + c := by ring
    have hhd : slot_count hd = c := by
      simp only [pool_count_sum] at h2
      omega
    have hsumtl : pool_count_sum tl = tl.length * c := by
      simp only [pool_count_sum] at h2 ⊢
      omega
    rcases List.mem_cons.mp hob with rfl | hob'
    · exact hhd
    · exact ih hubtl hsumtl ob hob'

/-- The scan step leaves the empty accumulator unchanged on a healthy full
slot. -/
lemma scan_step_full (maxPer : Nat) (ib : Nat × Option Browser)
    (h : ∃ b, ib.2 = some b ∧ b.healthy = true ∧ ¬ b.count < maxPer) :
    scan_step maxPer (none, []) ib = (none, []) := by
  rcases h with ⟨b, hb, hh, hc⟩
  unfold scan_step
  rw [hb]
  simp [hh, hc]

/-- On a table of healthy, full slots the scan finds neither headroom nor
unhealthy slots. -/
lemma scan_browsers_saturated (maxPer : Nat) (l : List (Option Browser))
    (hfull : ∀ ob ∈ l, ∃ b, ob = some b ∧ b.healthy = true ∧
      ¬ b.count < maxPer) :
    scan_browsers maxPer l = (none, []) := by
  unfold scan_browsers
  have hmem : ∀ p ∈ l.enum, ∃ b, p.2 = some b ∧ b.healthy = true ∧
      ¬ b.count < maxPer := by
    intro p hp
    apply hfull
    have := List.mem_map_of_mem Prod.snd hp
    rwa [List.enum_map_snd] at this
  revert hmem
  generalize l.enum = pairs
  intro hmem
  induction pairs with
  | nil => rfl
  | cons hd tl ih =>
    rw [List.foldl_cons, scan_step_full maxPer hd (hmem hd (List.mem_cons_self hd tl))]
    exact ih (fun p hp => hmem p (List.mem_cons_of_mem hd hp))

/-- On a table of healthy, full slots `_find_available_browser` raises
*PoolSaturated*. -/
lemma find_available_saturated (p : Pool)
    (hfull : ∀ ob ∈ p.browsers, ∃ b, ob = some b ∧ b.healthy = true ∧
      ¬ b.count < p.max_contexts_per_browser) :
    find_available_browser p = Except.error PoolError.poolSaturated := by
  have hfind : p.browsers.enum.find? (fun ib => ib.2 = none) = none := by
    rw [List.find?_eq_none]
    intro x hx
    have hx2 : x.2 ∈ p.browsers := by
      have := List.mem_map_of_mem Prod.snd hx
      rwa [List.enum_map_snd] at this
    rcases hfull x.2 hx2 with ⟨b, hb, _, _⟩
    simp [hb]
  simp [find_available_browser,
    scan_browsers_saturated p.max_contexts_per_browser p.browsers hfull, hfind]

/-- On a saturated pool `get_context` returns `None` for a new account and
leaves the pool unchanged. -/
lemma get_context_saturated (p : Pool) (a : String)
    (hfull : ∀ ob ∈ p.browsers, ∃ b, ob = some b ∧ b.healthy = true ∧
      ¬ b.count < p.max_contexts_per_browser)
    (hnew : ∀ c ∈ p.contexts, c.account_id ≠ a) :
    get_context p a = (none, p) := by
  have hfindc : p.contexts.find? (fun c => c.account_id == a) = none := by
    rw [List.find?_eq_none]
    intro c hc
    simpa using hnew c hc
  have honce : get_context_once p a = (none, p) := by
    unfold get_context_once create_new_context
    rw [hfindc, find_available_saturated p hfull]
  simp [get_context, get_context_go, honce]

/-- C3: in every pool state whose slot table carries healthy instances at
their per-slot cap and which holds exactly
max_browsers × max_contexts_per_browser contexts (the counts summing to the
context-map size), `get_context` for an account with no existing context
fails: the slot search raises *PoolSaturated* and `get_context` returns
`None` with the pool unchanged. -/
theorem C3_pool_saturated (p : Pool) (a : String)
    (hlen : p.browsers.length = p.max_browsers)
    (hslots : ∀ ob ∈ p.browsers, ∃ b, ob = some b ∧ b.healthy = true ∧
      b.count ≤ p.max_contexts_per_browser)
    (hctx : p.contexts.length = p.max_browsers * p.max_contexts_per_browser)
    (hsum : pool_count_sum p.browsers = p.contexts.length)
    (hnew : ∀ c ∈ p.contexts, c.account_id ≠ a) :
    find_available_browser p = Except.error PoolError.poolSaturated ∧
    get_context p a = (none, p) := by
  have hub : ∀ ob ∈ p.browsers, slot_count ob ≤ p.max_contexts_per_browser := by
    intro ob hob
    rcases hslots ob hob with ⟨b, rfl, _, hb⟩
    simpa [slot_count] using hb
  have hsum' : pool_count_sum p.browsers
      = p.browsers.length * p.max_contexts_per_browser := by
    rw [hsum, hctx, hlen]
  have heach := slot_count_eq_of_sum p.max_contexts_per_browser p.browsers
    hub hsum'
  have hfull : ∀ ob ∈ p.browsers, ∃ b, ob = some b ∧ b.healthy = true ∧
      ¬ b.count < p.max_contexts_per_browser := by
    intro ob hob
    rcases hslots ob hob with ⟨b, rfl, hh, _⟩
    refine ⟨b, rfl, hh, ?_⟩
    have := heach (some b) hob
    simp [slot_count] at this
    omega
  exact ⟨find_available_saturated p hfull, get_context_saturated p a hfull hnew⟩

/-- A pool at the default capacity: 10 slots, each healthy and hosting 15
contexts, and 150 registered contexts. -/
def saturated_pool : Pool :=
  { max_browsers := MAX_BROWSERS
    max_contexts_per_browser := MAX_CONTEXTS_PER_BROWSER
    browsers := List.replicate MAX_BROWSERS (some ⟨true, MAX_CONTEXTS_PER_BROWSER⟩)
    contexts := (List.range (MAX_BROWSERS * MAX_CONTEXTS_PER_BROWSER)).map
      (fun i => ⟨"acct" ++ toString i, i / MAX_CONTEXTS_PER_BROWSER, true⟩) }

set_option maxRecDepth 100000 in
/-- Witness for C3: on the concrete 10 × 15 pool at exactly 150 contexts, a
fresh account is refused with *PoolSaturated*. -/
theorem C3_pool_saturated_witness :
    find_available_browser saturated_pool
      = Except.error PoolError.poolSaturated ∧
    get_context saturated_pool "newacct" = (none, saturated_pool) := by
  refine C3_pool_saturated saturated_pool "newacct" (by decide) ?_ (by decide)
    (by decide) (by decide)
  intro ob hob
  have hob' : ob = some ⟨true, MAX_CONTEXTS_PER_BROWSER⟩ :=
    List.eq_of_mem_replicate (by simpa [saturated_pool] using hob)
  exact ⟨⟨true, MAX_CONTEXTS_PER_BROWSER⟩, hob', rfl, le_refl _⟩

/-- Environment of the C1 scenario: the first extractor (`store_stats`)
receives portal code 606 with a "not logged in" message — an invalidation
signal — every navigation succeeds, and every re-login attempt fails. -/
def auth_fail_env : RunEnv :=
  { resp := fun t => if t = "store_stats" then ⟨some 606, "未登录"⟩
      else ⟨none, ""⟩
    okResult := fun t => ⟨t, true, 5, "无"⟩
    nav := fun _ => NavOutcome.ok
    navRetry := fun _ => true
    relogin := [false, false] }

/-- The invalidation error text built for portal code 606. -/
def authMsg606 : String := "登录失效 (code=606, msg=未登录)"

/-- The joined per-product error list of the C1 scenario's final task
callback. -/
def c1_joined_errors : String :=
  "[store_stats] 登录失效 (code=606, msg=未登录)\n" ++
  "[kewen_daily_report] Cookie失效且重新登录失败: 登录失效 (code=606, msg=未登录)\n" ++
  "[promotion_daily_report] Cookie失效且重新登录失败: 登录失效 (code=606, msg=未登录)\n" ++
  "[review_detail_dianping] Cookie失效且重新登录失败: 登录失效 (code=606, msg=未登录)\n" ++
  "[review_detail_meituan] Cookie失效且重新登录失败: 登录失效 (code=606, msg=未登录)\n" ++
  "[review_summary_dianping] Cookie失效且重新登录失败: 登录失效 (code=606, msg=未登录)\n" ++
  "[review_summary_meituan] Cookie失效且重新登录失败: 登录失效 (code=606, msg=未登录)"

set_option maxRecDepth 100000 in
/-- C1 counterexample: in the invalidation-with-failed-re-login run of
lease 42 the task callback — the trace's unique callback and its last
event — carries retry_add 1, not the claimed 0. -/
theorem C1_counterexample_retry_add :
    (execute_single_task_all 42 "A1" "2025-01-01" "2025-01-02"
        auth_fail_env).2.getLast?
      = some (MEvent.taskCallback 42 3 c1_joined_errors 1) ∧
    (execute_single_task_all 42 "A1" "2025-01-01" "2025-01-02"
        auth_fail_env).2.filter
      (fun ev => match ev with
        | MEvent.taskCallback _ _ _ _ => true
        | _ => false)
      = [MEvent.taskCallback 42 3 c1_joined_errors 1] := by
  refine ⟨by decide, by decide⟩

set_option maxRecDepth 100000 in
/-- C1 (amended): for every leased task in which an invalidation signal is
observed and the re-login attempts fail, the three-endpoint invalidation
fan-out (`handle_auth_invalid`: account-status report, log sink, batch
task-status with the current product failed and the others not run) is
issued at detection time, and the run then ends with the task callback
reported FAILED (status 3) with a non-empty error message and retry_add 1
(the generic failed-product aggregation), not retry_add 0. -/
theorem C1_auth_invalid_relogin_fail (task_id : Int)
    (account dstart dend : String) :
    ∃ e : String, e ≠ "" ∧
      execute_single_task_all task_id account dstart dend auth_fail_env
        = (false,
           handle_auth_invalid account dstart dend "store_stats" authMsg606 ++
           [MEvent.postPlatformAccountsInvalid account,
            MEvent.postUpdateBatch account dstart dend
              (batch_status_payload
                (run_all_tasks account dstart dend auth_fail_env).1),
            MEvent.taskCallback task_id 3 e 1]) ∧
      (batch_status_payload [⟨"store_stats", false, 0, authMsg606⟩]).map
          (fun ps => (ps.task_name, ps.status))
        = [("store_stats", 3), ("kewen_daily_report", 0),
           ("promotion_daily_report", 0), ("review_detail_dianping", 0),
           ("review_detail_meituan", 0), ("review_summary_dianping", 0),
           ("review_summary_meituan", 0)] := by
  refine ⟨c1_joined_errors, by decide, ?_, by decide⟩
  rfl

end Theorems
